import Mathlib

/-!
Shallow embedding of the `self-monad` Rust crate (src/lib.rs).

The crate provides three container variants, each pairing an owner `O` with a
derivation step that materializes a borrowed view `V` of the owner:

* `SelfMonadOnce` stores the step in a `Cell<Option<F>>`; each materialize
  entry point (`as_ref`, `as_mut`) does `self.func.take().unwrap()`, so the
  first call empties the shared slot and a second call panics on `unwrap`.
* `SelfMonad` stores a plain `Fn` step and re-invokes it on every call.
* `SelfMonadMut` stores an `FnMut` step (internal state) behind a `RefCell`;
  each call takes the runtime borrow guard via `borrow_mut`, which panics on a
  re-entrant call while the guard is held.

Modelling conventions:
* A panic is modelled as `Option.none`; a call that returns a view yields
  `some`.
* A derivation step is modelled as a lens `Step O V`: `get` embeds the shared
  invocation `F(&O) -> &V` (the view value read through the reference), and
  `set` embeds writing a value through the mutable handle `F(&mut O) -> &mut V`
  (the owner after the write).  A stateful step (`StepS`) additionally threads
  its captured internal state `S` through `get`, mirroring an `FnMut` closure.
* A returned `&mut V` handle is modelled as a `MutHandle`: the value readable
  through it, the container state after writing a value through it and ending
  the borrow, and the container state after dropping it unwritten.
* Interior mutation through `&self` (the `Cell` take in `SelfMonadOnce`, the
  state of the `FnMut` inside the `RefCell` of `SelfMonadMut`) is made explicit
  by returning the post-call container alongside the view.
-/

/-- A mutable handle `&mut V` into a container of type `C`: the value readable
through the handle, the container after writing a value through the handle and
releasing the borrow, and the container after releasing the borrow unwritten. -/
structure MutHandle (C : Type u) (V : Type v) where
  view : V
  write : V → C
  release : C

/-- A stateless derivation step over owner `O` with view `V`.  `get` is the
invocation against a shared borrow of the owner; `set` is the effect on the
owner of writing a view value through the handle obtained from a mutable
borrow. -/
structure Step (O : Type u) (V : Type v) where
  get : O → V
  set : O → V → O

/-- A stateful derivation step (an `FnMut` closure): its captured internal
state `S`, the invocation `get` which reads the owner and updates the state,
and the write-back `set` of the mutable entry point. -/
structure StepS (O : Type u) (V : Type v) (S : Type w) where
  state : S
  get : S → O → V × S
  set : O → V → O

/-- A `RefCell`: the wrapped value together with the runtime flag recording
whether the exclusive borrow guard is currently held. -/
structure RefCellSlot (α : Type u) where
  value : α
  borrowed : Bool

/-- Rust `SelfMonadOnce<O, V, F>`: the owner and the one-shot step held in a
`Cell<Option<F>>`.  The `owner` field is also the embedding of the
`SelfMonadOwner::owner` accessor, which returns `&self.owner`. -/
structure SelfMonadOnce (O : Type u) (V : Type v) where
  owner : O
  func : Option (Step O V)

/-- Rust `SelfMonadOnce::new`: stores the owner and wraps the step in
`Cell::new(Some(func))`, without invoking it. -/
def SelfMonadOnce.new (owner : O) (func : Step O V) : SelfMonadOnce O V :=
  { owner := owner, func := some func }

/-- Rust `SelfMonadOnce::new_mut`: identical body to `new` (different trait bound in
the source). -/
def SelfMonadOnce.new_mut (owner : O) (func : Step O V) : SelfMonadOnce O V :=
  { owner := owner, func := some func }

/-- Rust `<SelfMonadOnce as AsRef>::as_ref`: `(self.func.take().unwrap())(&self.owner)`.
`Cell::take` empties the slot even through `&self`, so the post-call container
is returned; `unwrap` on an empty slot panics (`none`). -/
def SelfMonadOnce.as_ref (m : SelfMonadOnce O V) :
    Option (V × SelfMonadOnce O V) :=
  match m.func with
  | none => none
  | some f => some (f.get m.owner, { owner := m.owner, func := none })

/-- Rust `<SelfMonadOnce as AsMut>::as_mut`: `(self.func.take().unwrap())(&mut self.owner)`.
Takes the shared slot and returns a mutable handle; whether or not the caller
writes through the handle, the slot is empty afterwards. -/
def SelfMonadOnce.as_mut (m : SelfMonadOnce O V) :
    Option (MutHandle (SelfMonadOnce O V) V) :=
  match m.func with
  | none => none
  | some f =>
    some { view := f.get m.owner,
           write := fun w => { owner := f.set m.owner w, func := none },
           release := { owner := m.owner, func := none } }

/-- Rust `<SelfMonadOnce as Deref>::deref`: delegates to `AsRef::as_ref(self)`. -/
def SelfMonadOnce.deref (m : SelfMonadOnce O V) :
    Option (V × SelfMonadOnce O V) :=
  m.as_ref

/-- Rust `SelfMonadOwner::owner_mut` for `SelfMonadOnce`: `&mut self.owner`, a
mutable handle on the owner field; the step slot is untouched. -/
def SelfMonadOnce.owner_mut (m : SelfMonadOnce O V) :
    MutHandle (SelfMonadOnce O V) O :=
  { view := m.owner,
    write := fun x => { owner := x, func := m.func },
    release := m }

/-- Rust `SelfMonadOwner::owner_into` for `SelfMonadOnce`: consumes the container
and returns `self.owner`, discarding the step. -/
def SelfMonadOnce.owner_into (m : SelfMonadOnce O V) : O :=
  m.owner

/-- Rust `SelfMonad<O, V, F>`: the owner and a plain repeatable step field.  The
`owner` field is also the embedding of the `SelfMonadOwner::owner` accessor. -/
structure SelfMonad (O : Type u) (V : Type v) where
  owner : O
  func : Step O V

/-- Rust `SelfMonad::new`: stores owner and step, without invoking the step. -/
def SelfMonad.new (owner : O) (func : Step O V) : SelfMonad O V :=
  { owner := owner, func := func }

/-- Rust `SelfMonad::new_mut`: identical body to `new` (different trait bound in the
source). -/
def SelfMonad.new_mut (owner : O) (func : Step O V) : SelfMonad O V :=
  { owner := owner, func := func }

/-- Rust `<SelfMonad as AsRef>::as_ref`: `(self.func)(&self.owner)`.  The step is
a plain `Fn` invoked fresh on every call through `&self`; there is no interior
mutability, so the container is unchanged and the call is total. -/
def SelfMonad.as_ref (m : SelfMonad O V) : V :=
  m.func.get m.owner

/-- Rust `<SelfMonad as AsMut>::as_mut`: `(self.func)(&mut self.owner)`, a mutable
handle on the view; the step stays in place. -/
def SelfMonad.as_mut (m : SelfMonad O V) : MutHandle (SelfMonad O V) V :=
  { view := m.func.get m.owner,
    write := fun w => { owner := m.func.set m.owner w, func := m.func },
    release := m }

/-- Rust `<SelfMonad as Deref>::deref`: delegates to `AsRef::as_ref(self)`. -/
def SelfMonad.deref (m : SelfMonad O V) : V :=
  m.as_ref

/-- Rust `SelfMonadOwner::owner_mut` for `SelfMonad`. -/
def SelfMonad.owner_mut (m : SelfMonad O V) : MutHandle (SelfMonad O V) O :=
  { view := m.owner,
    write := fun x => { owner := x, func := m.func },
    release := m }

/-- Rust `SelfMonadOwner::owner_into` for `SelfMonad`. -/
def SelfMonad.owner_into (m : SelfMonad O V) : O :=
  m.owner

/-- Rust `SelfMonadMut<O, V, F>`: the owner and the stateful step held in a
`RefCell<F>`.  The `owner` field is also the embedding of the
`SelfMonadOwner::owner` accessor. -/
structure SelfMonadMut (O : Type u) (V : Type v) (S : Type w) where
  owner : O
  func : RefCellSlot (StepS O V S)

/-- Rust `SelfMonadMut::new`: stores the owner and `RefCell::new(func)` with the
borrow guard free, without invoking the step. -/
def SelfMonadMut.new (owner : O) (func : StepS O V S) : SelfMonadMut O V S :=
  { owner := owner, func := { value := func, borrowed := false } }

/-- Rust `SelfMonadMut::new_mut`: identical body to `new` (different trait bound in
the source). -/
def SelfMonadMut.new_mut (owner : O) (func : StepS O V S) : SelfMonadMut O V S :=
  { owner := owner, func := { value := func, borrowed := false } }

/-- Rust `<SelfMonadMut as AsRef>::as_ref`:
`(&mut *self.func.borrow_mut())(&self.owner)`.  `borrow_mut` panics (`none`)
when the guard is already held; otherwise the step runs against a shared
borrow of the owner, its internal state advances, and the guard is released
before the call returns. -/
def SelfMonadMut.as_ref (m : SelfMonadMut O V S) :
    Option (V × SelfMonadMut O V S) :=
  if m.func.borrowed then none
  else
    let f := m.func.value
    let vs := f.get f.state m.owner
    some (vs.1,
      { owner := m.owner,
        func := { value := { f with state := vs.2 }, borrowed := false } })

/-- Rust `<SelfMonadMut as AsMut>::as_mut`:
`(&mut *self.func.borrow_mut())(&mut self.owner)`.  Same guard discipline as
`as_ref`, but the step gets a mutable borrow of the owner and the returned
handle writes through into the owner's storage. -/
def SelfMonadMut.as_mut (m : SelfMonadMut O V S) :
    Option (MutHandle (SelfMonadMut O V S) V) :=
  if m.func.borrowed then none
  else
    let f := m.func.value
    let vs := f.get f.state m.owner
    some { view := vs.1,
           write := fun w =>
             { owner := f.set m.owner w,
               func := { value := { f with state := vs.2 }, borrowed := false } },
           release :=
             { owner := m.owner,
               func := { value := { f with state := vs.2 }, borrowed := false } } }

/-- Rust `<SelfMonadMut as Deref>::deref`: delegates to `AsRef::as_ref(self)`. -/
def SelfMonadMut.deref (m : SelfMonadMut O V S) :
    Option (V × SelfMonadMut O V S) :=
  m.as_ref

/-- The container as observed by code running inside the body of the step
itself: the `borrow_mut` guard taken by the enclosing materialize call is
still alive, so the `RefCell` flag is set.  A re-entrant materialize call is a
call on this state. -/
def SelfMonadMut.duringStep (m : SelfMonadMut O V S) : SelfMonadMut O V S :=
  { owner := m.owner, func := { value := m.func.value, borrowed := true } }

/-- Rust `SelfMonadOwner::owner_mut` for `SelfMonadMut`. -/
def SelfMonadMut.owner_mut (m : SelfMonadMut O V S) :
    MutHandle (SelfMonadMut O V S) O :=
  { view := m.owner,
    write := fun x => { owner := x, func := m.func },
    release := m }

/-- Rust `SelfMonadOwner::owner_into` for `SelfMonadMut`. -/
def SelfMonadMut.owner_into (m : SelfMonadMut O V S) : O :=
  m.owner

/-- The owner used throughout the crate's tests: the 5-character sequence
"hello", as a list of characters. -/
def hello : List Char :=
  ['h', 'e', 'l', 'l', 'o']

/-- The "first two elements" step of the tests (`|s| &s[0..2]`): the view is
the first two characters; writing a value through the mutable handle replaces
the first two characters in place. -/
def firstTwo : Step (List Char) (List Char) :=
  { get := fun s => s.take 2,
    set := fun s w => w ++ s.drop 2 }

/-- A stateful "first two elements" step whose internal state counts its own
invocations, as in the stateful-variant scenario of the spec. -/
def firstTwoS : StepS (List Char) (List Char) Nat :=
  { state := 0,
    get := fun n s => (s.take 2, n + 1),
    set := fun s w => w ++ s.drop 2 }

/-- A stateful step whose view is its own invocation counter, making the
internal state observable through the returned views. -/
def counterStep : StepS (List Char) Nat Nat :=
  { state := 0,
    get := fun n _ => (n, n + 1),
    set := fun s _ => s }

/-- C2: for every owner and step, the first materialize call on a freshly
constructed `SelfMonadOnce` returns exactly the view the step produces from a
borrow of the stored owner (and empties the step slot); concretely, owner
"hello" with the first-two-elements step yields "he". -/
theorem selfMonadOnce_first_materialize_correct :
    (∀ (O V : Type) (x : O) (f : Step O V),
      (SelfMonadOnce.new x f).as_ref = some (f.get x, { owner := x, func := none })) ∧
    (SelfMonadOnce.new hello firstTwo).as_ref
      = some (['h', 'e'], { owner := hello, func := none }) := by
  exact ⟨fun O V x f => rfl, rfl⟩

/-- C5: for every variant and both constructors, constructing from owner `x`
and a step and immediately calling `owner_into` returns exactly `x`; and on
any container state, `owner_into` returns the stored owner, discarding the
step. -/
theorem owner_into_roundtrip :
    (∀ (O V : Type) (x : O) (f : Step O V),
      (SelfMonadOnce.new x f).owner_into = x ∧
      (SelfMonadOnce.new_mut x f).owner_into = x ∧
      (SelfMonad.new x f).owner_into = x ∧
      (SelfMonad.new_mut x f).owner_into = x) ∧
    (∀ (O V S : Type) (x : O) (f : StepS O V S),
      (SelfMonadMut.new x f).owner_into = x ∧
      (SelfMonadMut.new_mut x f).owner_into = x) ∧
    (∀ (O V : Type) (m : SelfMonadOnce O V), m.owner_into = m.owner) ∧
    (∀ (O V : Type) (m : SelfMonad O V), m.owner_into = m.owner) ∧
    (∀ (O V S : Type) (m : SelfMonadMut O V S), m.owner_into = m.owner) := by
  exact ⟨fun O V x f => ⟨rfl, rfl, rfl, rfl⟩,
         fun O V S x f => ⟨rfl, rfl⟩,
         fun O V m => rfl, fun O V m => rfl, fun O V S m => rfl⟩

/-- C6: for every variant and container state, the `owner` accessor is the
stored owner field and `owner_mut` hands out a mutable handle on it whose
reads, writes and release never touch the step slot and never invoke the
step: the `func` field (slot, closure state and borrow flag included) is
unchanged by every outcome of the accessors. -/
theorem owner_accessors_never_invoke_step :
    (∀ (O V : Type) (m : SelfMonadOnce O V),
      m.owner_mut.view = m.owner ∧ m.owner_mut.release = m ∧
      ∀ x, (m.owner_mut.write x).func = m.func ∧ (m.owner_mut.write x).owner = x) ∧
    (∀ (O V : Type) (m : SelfMonad O V),
      m.owner_mut.view = m.owner ∧ m.owner_mut.release = m ∧
      ∀ x, (m.owner_mut.write x).func = m.func ∧ (m.owner_mut.write x).owner = x) ∧
    (∀ (O V S : Type) (m : SelfMonadMut O V S),
      m.owner_mut.view = m.owner ∧ m.owner_mut.release = m ∧
      ∀ x, (m.owner_mut.write x).func = m.func ∧ (m.owner_mut.write x).owner = x) := by
  exact ⟨fun O V m => ⟨rfl, rfl, fun x => ⟨rfl, rfl⟩⟩,
         fun O V m => ⟨rfl, rfl, fun x => ⟨rfl, rfl⟩⟩,
         fun O V S m => ⟨rfl, rfl, fun x => ⟨rfl, rfl⟩⟩⟩

/-- C7: for every variant, `new` and `new_mut` store the owner and the step
exactly as given without invoking the step: the stored owner equals the
argument, the step slot holds the given step (for the stateful variant with
its internal state still at its initial value and the borrow guard free). -/
theorem construction_stores_without_running :
    (∀ (O V : Type) (x : O) (f : Step O V),
      (SelfMonadOnce.new x f).owner = x ∧ (SelfMonadOnce.new x f).func = some f ∧
      (SelfMonadOnce.new_mut x f).owner = x ∧ (SelfMonadOnce.new_mut x f).func = some f ∧
      (SelfMonad.new x f).owner = x ∧ (SelfMonad.new x f).func = f ∧
      (SelfMonad.new_mut x f).owner = x ∧ (SelfMonad.new_mut x f).func = f) ∧
    (∀ (O V S : Type) (x : O) (f : StepS O V S),
      (SelfMonadMut.new x f).owner = x ∧
      (SelfMonadMut.new x f).func.value = f ∧
      (SelfMonadMut.new x f).func.value.state = f.state ∧
      (SelfMonadMut.new x f).func.borrowed = false ∧
      (SelfMonadMut.new_mut x f).owner = x ∧
      (SelfMonadMut.new_mut x f).func.value = f ∧
      (SelfMonadMut.new_mut x f).func.borrowed = false) := by
  exact ⟨fun O V x f => ⟨rfl, rfl, rfl, rfl, rfl, rfl, rfl, rfl⟩,
         fun O V S x f => ⟨rfl, rfl, rfl, rfl, rfl, rfl, rfl⟩⟩

/-- C8: for every variant, the mutable materialize entry point on owner
"hello" with the first-two-elements step returns a mutable view reading "he",
and writing a value through the handle mutates the owner's storage in place:
a subsequent read of the owner observes the first two characters replaced. -/
theorem as_mut_writes_through_to_owner :
    (∃ h, (SelfMonadOnce.new_mut hello firstTwo).as_mut = some h ∧
      h.view = ['h', 'e'] ∧
      (h.write ['H', 'E']).owner = ['H', 'E', 'l', 'l', 'o'] ∧
      (h.write ['H', 'E']).owner ≠ hello) ∧
    ((SelfMonad.new_mut hello firstTwo).as_mut.view = ['h', 'e'] ∧
      ((SelfMonad.new_mut hello firstTwo).as_mut.write ['H', 'E']).owner
        = ['H', 'E', 'l', 'l', 'o'] ∧
      ((SelfMonad.new_mut hello firstTwo).as_mut.write ['H', 'E']).owner ≠ hello) ∧
    (∃ h, (SelfMonadMut.new_mut hello firstTwoS).as_mut = some h ∧
      h.view = ['h', 'e'] ∧
      (h.write ['H', 'E']).owner = ['H', 'E', 'l', 'l', 'o'] ∧
      (h.write ['H', 'E']).owner ≠ hello) := by
  refine ⟨⟨_, rfl, rfl, rfl, by decide⟩,
          ⟨rfl, rfl, by decide⟩,
          ⟨_, rfl, rfl, rfl, by decide⟩⟩

/-- C10: for all three variants, `Deref::deref` is extensionally equal to
`AsRef::as_ref` — on every container state both return the identical view and
post-state, panicking (`none`) in exactly the same cases — since `deref`
delegates directly to `as_ref`. -/
theorem deref_extensionally_equals_as_ref :
    (∀ (O V : Type) (m : SelfMonadOnce O V), m.deref = m.as_ref) ∧
    (∀ (O V : Type) (m : SelfMonad O V), m.deref = m.as_ref) ∧
    (∀ (O V S : Type) (m : SelfMonadMut O V S), m.deref = m.as_ref) := by
  exact ⟨fun O V m => rfl, fun O V m => rfl, fun O V S m => rfl⟩

/-- C1: on any `SelfMonadOnce` container, once a materialize call has
completed through either entry point, every subsequent materialize call
through either entry point panics (`none`) and never returns a view, because
the single shared step slot has been emptied by the first call. -/
theorem selfMonadOnce_second_materialize_panics :
    ∀ (O V : Type) (m : SelfMonadOnce O V),
      (∀ v m2, m.as_ref = some (v, m2) → m2.as_ref = none ∧ m2.as_mut = none) ∧
      (∀ h, m.as_mut = some h →
        (h.release.as_ref = none ∧ h.release.as_mut = none) ∧
        ∀ w, (h.write w).as_ref = none ∧ (h.write w).as_mut = none) := by
  intro O V m
  obtain ⟨o, fo⟩ := m
  cases fo with
  | none =>
    constructor
    · intro v m2 hsome
      simp [SelfMonadOnce.as_ref] at hsome
    · intro h hsome
      simp [SelfMonadOnce.as_mut] at hsome
  | some f =>
    constructor
    · intro v m2 hsome
      simp only [SelfMonadOnce.as_ref, Option.some.injEq, Prod.mk.injEq] at hsome
      obtain ⟨hv, hm⟩ := hsome
      subst hm
      exact ⟨rfl, rfl⟩
    · intro h hsome
      simp only [SelfMonadOnce.as_mut, Option.some.injEq] at hsome
      subst hsome
      exact ⟨⟨rfl, rfl⟩, fun w => ⟨rfl, rfl⟩⟩

/-- Witness for C1 at owner "hello" with the first-two-elements step: the
first materialize succeeds with view "he", and the theorem yields that both
entry points panic on the resulting container. -/
theorem selfMonadOnce_second_materialize_panics_witness :
    (SelfMonadOnce.new hello firstTwo).as_ref
      = some (['h', 'e'], { owner := hello, func := none }) ∧
    SelfMonadOnce.as_ref
      ({ owner := hello, func := none } : SelfMonadOnce (List Char) (List Char)) = none ∧
    SelfMonadOnce.as_mut
      ({ owner := hello, func := none } : SelfMonadOnce (List Char) (List Char)) = none := by
  refine ⟨rfl, ?_, ?_⟩
  · exact ((selfMonadOnce_second_materialize_panics (List Char) (List Char)
      (SelfMonadOnce.new hello firstTwo)).1 ['h', 'e']
      ({ owner := hello, func := none }) rfl).1
  · exact ((selfMonadOnce_second_materialize_panics (List Char) (List Char)
      (SelfMonadOnce.new hello firstTwo)).1 ['h', 'e']
      ({ owner := hello, func := none }) rfl).2

/-- C3: the repeatable pure container's materialize invokes the stored step
fresh against a borrow of the stored owner on every call and never consumes
or disables the step; any two containers holding the same step and the same
owner content materialize the same view, so every call returns the same view
content as every other call as long as the owner is unchanged. -/
theorem selfMonad_materialize_repeatable :
    ∀ (O V : Type) (m : SelfMonad O V),
      m.as_ref = m.func.get m.owner ∧
      ∀ m2 : SelfMonad O V, m2.owner = m.owner → m2.func = m.func →
        m2.as_ref = m.as_ref := by
  intro O V m
  refine ⟨rfl, fun m2 ho hf => ?_⟩
  unfold SelfMonad.as_ref
  rw [ho, hf]

/-- Witness for C3 at owner "hello" with the first-two-elements step: a
second container with identical owner and step materializes the same view,
namely "he". -/
theorem selfMonad_materialize_repeatable_witness :
    (SelfMonad.new_mut hello firstTwo).as_ref = (SelfMonad.new hello firstTwo).as_ref ∧
    (SelfMonad.new hello firstTwo).as_ref = ['h', 'e'] := by
  exact ⟨(selfMonad_materialize_repeatable (List Char) (List Char)
      (SelfMonad.new hello firstTwo)).2 (SelfMonad.new_mut hello firstTwo) rfl rfl,
    (selfMonad_materialize_repeatable (List Char) (List Char)
      (SelfMonad.new hello firstTwo)).1⟩

/-- C4: on a `SelfMonadMut` container whose borrow guard is free, two
sequential materialize calls both succeed — the guard is released when each
call returns — and the second invocation of the step runs on the internal
state as updated by the first invocation; a re-entrant materialize call made
from within the body of the step itself (guard still held) panics (`none`). -/
theorem selfMonadMut_sequential_succeeds_reentrant_panics :
    ∀ (O V S : Type) (m : SelfMonadMut O V S), m.func.borrowed = false →
      (∃ v1 m1, m.as_ref = some (v1, m1) ∧
        v1 = (m.func.value.get m.func.value.state m.owner).1 ∧
        m1.func.borrowed = false ∧
        m1.func.value.state = (m.func.value.get m.func.value.state m.owner).2 ∧
        ∃ v2 m2, m1.as_ref = some (v2, m2) ∧
          v2 = (m.func.value.get m1.func.value.state m1.owner).1) ∧
      m.duringStep.as_ref = none := by
  intro O V S m h
  obtain ⟨o, ⟨f, b⟩⟩ := m
  cases b with
  | false => exact ⟨⟨_, _, rfl, rfl, rfl, rfl, _, _, rfl, rfl⟩, rfl⟩
  | true => simp at h

/-- Witness for C4 at owner "hello" with the invocation-counting step: the
guard of a fresh container is free, and the theorem yields that a re-entrant
call from inside the step panics. -/
theorem selfMonadMut_sequential_succeeds_reentrant_panics_witness :
    (SelfMonadMut.new hello counterStep).func.borrowed = false ∧
    (SelfMonadMut.new hello counterStep).duringStep.as_ref = none := by
  exact ⟨rfl, (selfMonadMut_sequential_succeeds_reentrant_panics (List Char) Nat Nat
    (SelfMonadMut.new hello counterStep) rfl).2⟩

/-- C9: the stateful variant's immutable materialize never changes the owner:
whenever `as_ref` returns a view and post-state, the post-state's owner is
identical to the pre-state's owner, even though the step's internal state
advances; the step only ever receives a shared borrow of the owner. -/
theorem selfMonadMut_as_ref_preserves_owner :
    ∀ (O V S : Type) (m : SelfMonadMut O V S) v m2,
      m.as_ref = some (v, m2) → m2.owner = m.owner := by
  intro O V S m v m2 h
  obtain ⟨o, ⟨f, b⟩⟩ := m
  cases b with
  | true => simp [SelfMonadMut.as_ref] at h
  | false =>
    simp only [SelfMonadMut.as_ref, Bool.false_eq_true, if_false,
      Option.some.injEq, Prod.mk.injEq] at h
    obtain ⟨hv, hm⟩ := h
    subst hm
    rfl

/-- Witness for C9 at owner "hello" with the invocation-counting step: the
first call returns view 0 and advances the internal counter to 1, and the
theorem yields that the owner is unchanged. -/
theorem selfMonadMut_as_ref_preserves_owner_witness :
    (SelfMonadMut.new hello counterStep).as_ref
      = some (0, { owner := hello,
                   func := { value := { counterStep with state := 1 }, borrowed := false } }) ∧
    SelfMonadMut.owner
      ({ owner := hello,
         func := { value := { counterStep with state := 1 }, borrowed := false } } :
        SelfMonadMut (List Char) Nat Nat)
      = (SelfMonadMut.new hello counterStep).owner := by
  refine ⟨rfl, ?_⟩
  exact selfMonadMut_as_ref_preserves_owner (List Char) Nat Nat
    (SelfMonadMut.new hello counterStep) 0
    ({ owner := hello,
       func := { value := { counterStep with state := 1 }, borrowed := false } }) rfl
